import Mathlib

/-!
Verification of `_scripts/import_books_from_csv.py`.

This file gives a shallow embedding of the pure row-processing core of the
CSV-import script (slug derivation, ISBN resolution, year parsing, list-field
parsing, category classification, cover resolution and front-matter
rendering), and proves properties of the embedded functions.

Modelling conventions:
 * a CSV row (`csv.DictReader` dictionary) is a structure of `Option String`
   fields; `row.get(k)` is `Option.getD`-style access;
 * Python string methods (`strip`, `lower`, `split`, …) and the concrete
   regular expressions of the script are implemented directly over `List Char`;
 * filesystem effects (`Path.exists`/`is_file`, `shutil.copyfile`) are
   abstracted into an `FS` oracle of booleans, and the optional network
   classifier (`detect_category_ai`) takes the classifier's textual reply
   (or `none` for any network/parse failure) as an explicit argument.
-/

/-- Python whitespace characters stripped by `str.strip()` (ASCII range). -/
def isPySpace (c : Char) : Bool :=
  c == ' ' || c == '\t' || c == '\n' || c == '\r' || c == '\x0b' || c == '\x0c'

/-- List-level `str.strip()`: drop leading and trailing whitespace. -/
def pyStripList (l : List Char) : List Char :=
  ((l.dropWhile isPySpace).reverse.dropWhile isPySpace).reverse

/-- Python `str.strip()`. -/
def pyStrip (s : String) : String :=
  String.mk (pyStripList s.data)

/-- Python `str.lower()` (ASCII letters; the script's data is handled per char). -/
def pyLower (s : String) : String :=
  String.mk (s.data.map Char.toLower)

/-- Python truthiness chain `a or b` on strings: `b` when `a` is empty. -/
def pyOr (a b : String) : String :=
  if a = "" then b else a

/-- Python `str.split(sep)` for a one-character separator (keeps empties). -/
def splitOnCharAux (sep : Char) : List Char → List Char → List String
  | [], cur => [String.mk cur.reverse]
  | c :: rest, cur =>
    if c = sep then String.mk cur.reverse :: splitOnCharAux sep rest []
    else splitOnCharAux sep rest (c :: cur)

/-- Python `s.split(sep)` (single-character separator). -/
def splitOnChar (sep : Char) (s : String) : List String :=
  splitOnCharAux sep s.data []

/-- Python `sep.join(items)`. -/
def joinWith (sep : String) : List String → String
  | [] => ""
  | [x] => x
  | x :: y :: rest => x ++ sep ++ joinWith sep (y :: rest)

/-- Does `needle` start `hay`? (used for Python's substring test). -/
def startsWithList : List Char → List Char → Bool
  | [], _ => true
  | _ :: _, [] => false
  | a :: as, b :: bs => a == b && startsWithList as bs

/-- Python's `needle in hay` substring test, over char lists. -/
def containsSub (needle : List Char) : List Char → Bool
  | [] => startsWithList needle []
  | c :: rest => startsWithList needle (c :: rest) || containsSub needle rest

/-- A CSV row: the columns the script reads, each possibly absent. -/
structure Row where
  title : Option String
  authors : Option String
  author : Option String
  isbn : Option String
  identifiers : Option String
  comments : Option String
  uuid : Option String
  id : Option String
  pubdate : Option String
  rating : Option String
  tags : Option String
  languages : Option String
  cover : Option String

/-- `safe_slug`: lowercase, strip, collapse non-`[a-z0-9]` runs to `-`,
strip dashes, fall back to "book". The `re.sub(r"[^a-z0-9]+", "-", ...)`
replacement of maximal runs is `reSubRuns`. -/
def reSubRuns (isBad : Char → Bool) : List Char → Bool → List Char
  | [], _ => []
  | c :: rest, inRun =>
    if isBad c then
      if inRun then reSubRuns isBad rest true
      else '-' :: reSubRuns isBad rest true
    else c :: reSubRuns isBad rest false

/-- Strip a given character from both ends (Python `str.strip("-")`). -/
def stripCharList (ch : Char) (l : List Char) : List Char :=
  ((l.dropWhile (· == ch)).reverse.dropWhile (· == ch)).reverse

/-- `safe_slug(text)` from the script. -/
def safe_slug (text : String) : String :=
  let t1 := pyLower (pyStrip text)
  let t2 := String.mk (reSubRuns (fun c => !(c.isLower || c.isDigit)) t1.data false)
  let t3 := String.mk (stripCharList '-' t2.data)
  if t3 = "" then "book" else t3

/-- `make_slug(row)`: uuid, else `book-<id>`, else `safe_slug` of the title. -/
def make_slug (row : Row) : String :=
  if row.uuid.getD "" ≠ "" then row.uuid.getD ""
  else if row.id.getD "" ≠ "" then "book-" ++ row.id.getD ""
  else safe_slug (row.title.getD "book")

/-- Characters kept by `clean_isbn`'s `re.sub(r"[^0-9Xx]", "", ...)`. -/
def isIsbnChar (c : Char) : Bool :=
  c.isDigit || c == 'X' || c == 'x'

/-- `clean_isbn(candidate)`: keep `[0-9Xx]` and accept length 13 or 10. -/
def clean_isbn (candidate : String) : String :=
  let digits := String.mk (candidate.data.filter isIsbnChar)
  if digits.length = 13 then digits
  else if digits.length = 10 then digits
  else ""

/-- Python `part.split(":", 1)`: split at the first colon, if any. -/
def splitFirstAux (sep : Char) : List Char → Option (List Char × List Char)
  | [] => none
  | c :: rest =>
    if c = sep then some ([], rest)
    else
      match splitFirstAux sep rest with
      | some (a, b) => some (c :: a, b)
      | none => none

/-- Loop body of `extract_isbn_from_identifiers` over the comma-split parts. -/
def extractIsbnLoop : List String → String
  | [] => ""
  | part :: rest =>
    match splitFirstAux ':' part.data with
    | none => extractIsbnLoop rest
    | some (k, v) =>
      if pyStrip (pyLower (String.mk k)) = "isbn" then
        let cleaned := clean_isbn (String.mk v)
        if cleaned ≠ "" then cleaned else extractIsbnLoop rest
      else extractIsbnLoop rest

/-- `extract_isbn_from_identifiers(value)`: note the source splits the
identifiers column on commas (`value.split(",")`). -/
def extract_isbn_from_identifiers (value : String) : String :=
  if value = "" then "" else extractIsbnLoop (splitOnChar ',' value)

/-- Loop body of `extract_asin_from_identifiers` over the comma-split parts. -/
def extractAsinLoop : List String → String
  | [] => ""
  | part :: rest =>
    match splitFirstAux ':' part.data with
    | none => extractAsinLoop rest
    | some (k, v) =>
      let key := pyStrip (pyLower (String.mk k))
      if containsSub ("asin").data key.data then
        let cleaned := String.mk (v.filter Char.isAlphanum)
        if cleaned ≠ "" then cleaned else extractAsinLoop rest
      else extractAsinLoop rest

/-- `extract_asin_from_identifiers(value)`. -/
def extract_asin_from_identifiers (value : String) : String :=
  if value = "" then "" else extractAsinLoop (splitOnChar ',' value)

/-!
The comment-scan regex of `find_isbn` is, verbatim from the source (a Python
raw string): `(97[89][- ]?\\d{1,5}[- ]?\\d{1,7}[- ]?\\d{1,7}[- ]?[0-9Xx])`.
Because the pattern is a *raw* string, `\\d` denotes an escaped backslash
followed by the letter `d`: the regex matches a literal backslash and then a
run of `d` characters, not a digit group.  The matcher below implements that
pattern exactly (greedy quantifiers with backtracking, as `re` does).
-/

/-- Match `[- ]?` (greedy: prefer consuming a separator), then continue. -/
def matchSepOpt (k : List Char → Option (List Char)) (l : List Char) : Option (List Char) :=
  (match l with
   | c :: rest => if c = '-' ∨ c = ' ' then k rest else none
   | [] => none) <|> k l

/-- Match a literal backslash (the `\\` escape of the raw-string pattern). -/
def matchBS (k : List Char → Option (List Char)) (l : List Char) : Option (List Char) :=
  match l with
  | '\\' :: rest => k rest
  | _ => none

/-- Match exactly `n` copies of the letter `d`. -/
def matchDExact : Nat → List Char → Option (List Char)
  | 0, l => some l
  | n + 1, 'd' :: rest => matchDExact n rest
  | _ + 1, _ => none

/-- Match `d{1,hi}` greedily (try `hi` copies first, down to 1), then continue. -/
def matchDRun (k : List Char → Option (List Char)) : Nat → List Char → Option (List Char)
  | 0, _ => none
  | n + 1, l =>
    (match matchDExact (n + 1) l with
     | some r => k r
     | none => none) <|> matchDRun k n l

/-- Match the final `[0-9Xx]` character class of the pattern. -/
def matchFinal (l : List Char) : Option (List Char) :=
  match l with
  | c :: rest => if isIsbnChar c then some rest else none
  | [] => none

/-- Match the whole comment-scan pattern at the head of `l`, returning the
unconsumed remainder on success. -/
def matchIsbnPat (l : List Char) : Option (List Char) :=
  match l with
  | '9' :: '7' :: c :: rest =>
    if c = '8' ∨ c = '9' then
      matchSepOpt
        (matchBS (matchDRun
          (matchSepOpt (matchBS (matchDRun
            (matchSepOpt (matchBS (matchDRun
              (matchSepOpt matchFinal) 7)))
            7)))
          5))
        rest
    else none
  | _ => none

/-- `re.findall` for the comment-scan pattern: leftmost, non-overlapping
matches (the fuel argument starts at the string length and only bounds the
recursion; each step either consumes a match or advances one position). -/
def findallIsbnAux : Nat → List Char → List (List Char)
  | 0, _ => []
  | _ + 1, [] => []
  | fuel + 1, c :: rest =>
    match matchIsbnPat (c :: rest) with
    | some r =>
        (c :: rest).take ((c :: rest).length - r.length) :: findallIsbnAux fuel r
    | none => findallIsbnAux fuel rest

/-- All matches of the comment-scan pattern in `l`. -/
def findallIsbn (l : List Char) : List (List Char) :=
  findallIsbnAux l.length l

/-- The `for m in matches` loop of `find_isbn` step 3: first match whose
`clean_isbn` is non-empty. -/
def firstCleanIsbn : List (List Char) → String
  | [] => ""
  | m :: rest =>
    let c := clean_isbn (String.mk m)
    if c ≠ "" then c else firstCleanIsbn rest

/-- Step 3 of `find_isbn`: scan the comments field with the pattern above. -/
def scan_comments (val : String) : String :=
  firstCleanIsbn (findallIsbn val.data)

/-- Python `str.replace("-", "")`. -/
def removeHyphens (s : String) : String :=
  String.mk (s.data.filter (fun c => c ≠ '-'))

/-- `find_isbn(row)`: direct isbn column, then identifiers, then comment scan. -/
def find_isbn (row : Row) : String :=
  let direct := clean_isbn (removeHyphens (row.isbn.getD ""))
  if direct ≠ "" then direct
  else
    let ident := extract_isbn_from_identifiers (row.identifiers.getD "")
    if ident ≠ "" then ident
    else scan_comments (row.comments.getD "")

/-- Separator class `[;, ]` of `to_list`'s `re.split` (semicolon, comma, space). -/
def isListSep (c : Char) : Bool :=
  c == ';' || c == ',' || c == ' '

/-- `re.split` on runs of a character class: a separator ends the current
part, further separators of the same run (tracked by `inSep`) are skipped,
and leading/trailing runs produce empty parts, as `re.split` does. -/
def reSplitRunsAux (isSep : Char → Bool) : List Char → List Char → Bool → List (List Char)
  | [], cur, _ => [cur.reverse]
  | c :: rest, cur, inSep =>
    if isSep c then
      if inSep then reSplitRunsAux isSep rest [] true
      else cur.reverse :: reSplitRunsAux isSep rest [] true
    else reSplitRunsAux isSep rest (c :: cur) false

/-- Split on runs of the class `isSep`. -/
def reSplitRuns (isSep : Char → Bool) (l : List Char) : List (List Char) :=
  reSplitRunsAux isSep l [] false

/-- `to_list(value)`: split on `[;, ]+`, strip each part, drop empties. -/
def to_list (value : String) : List String :=
  if value = "" then []
  else
    (((reSplitRuns isListSep value.data).map
        (fun part => pyStrip (String.mk part))).filter (fun p => p ≠ ""))

/-- `quote(value)`: wrap in double quotes, replacing `"` by `\\"`
(the source's replacement text is the three characters backslash,
backslash, quote). -/
def quote (value : String) : String :=
  "\"" ++ String.mk (value.data.flatMap
    (fun c => if c = '"' then ['\\', '\\', '"'] else [c])) ++ "\""

/-- `render_list(items)`. -/
def render_list (items : List String) : String :=
  if items = [] then "[]"
  else "[" ++ joinWith ", " (items.map quote) ++ "]"

/-!
`parse_year` tries `strptime` with the formats `"%Y-%m-%dT%H:%M:%S%z"`,
`"%Y-%m-%dT%H:%M:%S"` and `"%Y-%m-%d"`, each applied to `value[:len(fmt)]`
(the first 19, 17 and 8 characters respectively).  The parsers below follow
CPython's `_strptime` regexes: `%Y` is exactly four digits, `%m` is
`1[0-2]|0[1-9]|[1-9]`, `%d` is `3[01]|[12]\d|0[1-9]|[1-9]`, `%H` is
`2[0-3]|[0-1]\d|\d`, `%M`/`%S` are `[0-5]\d|\d`, `%z` is
`[+-]\d\d:?[0-5]\d(:?[0-5]\d(\.\d{1,6})?)?|Z`, literals match
case-insensitively, the whole (truncated) string must be consumed, and the
matched date must be constructible (`datetime` raises on e.g. Feb 30).
-/

/-- Numeric value of a digit character. -/
def digitVal (c : Char) : Nat :=
  c.toNat - '0'.toNat

/-- `%Y`: exactly four digits. -/
def pY4 : List Char → Option (Nat × List Char)
  | a :: b :: c :: d :: rest =>
    if a.isDigit && b.isDigit && c.isDigit && d.isDigit then
      some (digitVal a * 1000 + digitVal b * 100 + digitVal c * 10 + digitVal d, rest)
    else none
  | _ => none

/-- `%m`: `1[0-2]|0[1-9]|[1-9]`. -/
def pMonth : List Char → Option (Nat × List Char)
  | '1' :: '0' :: rest => some (10, rest)
  | '1' :: '1' :: rest => some (11, rest)
  | '1' :: '2' :: rest => some (12, rest)
  | '0' :: c :: rest => if '1' ≤ c ∧ c ≤ '9' then some (digitVal c, rest) else none
  | c :: rest => if '1' ≤ c ∧ c ≤ '9' then some (digitVal c, rest) else none
  | [] => none

/-- `%d`: `3[01]|[12]\d|0[1-9]|[1-9]`. -/
def pDay : List Char → Option (Nat × List Char)
  | '3' :: '0' :: rest => some (30, rest)
  | '3' :: '1' :: rest => some (31, rest)
  | '1' :: c :: rest =>
    if c.isDigit then some (10 + digitVal c, rest) else some (1, c :: rest)
  | '2' :: c :: rest =>
    if c.isDigit then some (20 + digitVal c, rest) else some (2, c :: rest)
  | '0' :: c :: rest => if '1' ≤ c ∧ c ≤ '9' then some (digitVal c, rest) else none
  | c :: rest => if '1' ≤ c ∧ c ≤ '9' then some (digitVal c, rest) else none
  | [] => none

/-- `%H`: `2[0-3]|[0-1]\d|\d`. -/
def pHour : List Char → Option (Nat × List Char)
  | '2' :: c :: rest =>
    if '0' ≤ c ∧ c ≤ '3' then some (20 + digitVal c, rest) else some (2, c :: rest)
  | '0' :: c :: rest =>
    if c.isDigit then some (digitVal c, rest) else some (0, c :: rest)
  | '1' :: c :: rest =>
    if c.isDigit then some (10 + digitVal c, rest) else some (1, c :: rest)
  | c :: rest => if c.isDigit then some (digitVal c, rest) else none
  | [] => none

/-- `%M` and `%S`: `[0-5]\d|\d`. -/
def pMinSec : List Char → Option (Nat × List Char)
  | c1 :: c2 :: rest =>
    if '0' ≤ c1 ∧ c1 ≤ '5' ∧ c2.isDigit then some (digitVal c1 * 10 + digitVal c2, rest)
    else if c1.isDigit then some (digitVal c1, c2 :: rest)
    else none
  | [c1] => if c1.isDigit then some (digitVal c1, []) else none
  | [] => none

/-- Optional fractional seconds `(\.\d{1,6})?` inside `%z` (greedy). -/
def takeDigitsUpTo : Nat → List Char → List Char
  | 0, l => l
  | _ + 1, [] => []
  | n + 1, c :: rest => if c.isDigit then takeDigitsUpTo n rest else c :: rest

/-- Consume `(\.\d{1,6})?` if present. -/
def pFrac (l : List Char) : List Char :=
  match l with
  | '.' :: c :: rest => if c.isDigit then takeDigitsUpTo 5 rest else l
  | _ => l

/-- Optional seconds group `(:?[0-5]\d(\.\d{1,6})?)?` of `%z`. -/
def pZsec (l : List Char) : List Char :=
  match l with
  | ':' :: c1 :: c2 :: rest =>
    if '0' ≤ c1 ∧ c1 ≤ '5' ∧ c2.isDigit then pFrac rest else l
  | c1 :: c2 :: rest =>
    if '0' ≤ c1 ∧ c1 ≤ '5' ∧ c2.isDigit then pFrac rest else l
  | _ => l

/-- Mandatory offset minutes `:?[0-5]\d` of `%z`, then the optional seconds. -/
def pZmin (l : List Char) : Option (List Char) :=
  match l with
  | ':' :: c1 :: c2 :: rest =>
    if '0' ≤ c1 ∧ c1 ≤ '5' ∧ c2.isDigit then some (pZsec rest) else none
  | c1 :: c2 :: rest =>
    if '0' ≤ c1 ∧ c1 ≤ '5' ∧ c2.isDigit then some (pZsec rest) else none
  | _ => none

/-- Offset hours `\d\d` of `%z`. -/
def pZbody (l : List Char) : Option (List Char) :=
  match l with
  | c1 :: c2 :: rest => if c1.isDigit ∧ c2.isDigit then pZmin rest else none
  | _ => none

/-- `%z`: `[+-]\d\d:?[0-5]\d(:?[0-5]\d(\.\d{1,6})?)?|Z`. -/
def pZ (l : List Char) : Option (List Char) :=
  match l with
  | '+' :: rest => pZbody rest
  | '-' :: rest => pZbody rest
  | 'Z' :: rest => some rest
  | _ => none

/-- Gregorian leap year, as `datetime` uses. -/
def isLeap (y : Nat) : Bool :=
  (y % 4 == 0 && y % 100 != 0) || y % 400 == 0

/-- Number of days in a month. -/
def daysInMonth (y m : Nat) : Nat :=
  if m = 2 then (if isLeap y then 29 else 28)
  else if m = 4 ∨ m = 6 ∨ m = 9 ∨ m = 11 then 30
  else 31

/-- `datetime(year, month, day, ...)` constructibility (month and the field
ranges below `daysInMonth` are already ensured by the directive regexes). -/
def validDate (y m d : Nat) : Bool :=
  decide (1 ≤ y) && decide (y ≤ 9999) && decide (1 ≤ d) && decide (d ≤ daysInMonth y m)

/-- The shared `%Y-%m-%d` head of all three formats. -/
def strptimeYMD (l : List Char) : Option (Nat × Nat × Nat × List Char) :=
  match pY4 l with
  | none => none
  | some (y, r1) =>
    match r1 with
    | '-' :: r2 =>
      match pMonth r2 with
      | none => none
      | some (m, r3) =>
        match r3 with
        | '-' :: r4 =>
          match pDay r4 with
          | none => none
          | some (d, r5) => some (y, m, d, r5)
        | _ => none
    | _ => none

/-- The `T%H:%M:%S` tail (the literal `T` matches case-insensitively). -/
def strptimeHMS (l : List Char) : Option (List Char) :=
  match l with
  | c :: r1 =>
    if c = 'T' ∨ c = 't' then
      match pHour r1 with
      | none => none
      | some (_, r2) =>
        match r2 with
        | ':' :: r3 =>
          match pMinSec r3 with
          | none => none
          | some (_, r4) =>
            match r4 with
            | ':' :: r5 =>
              match pMinSec r5 with
              | none => none
              | some (_, r6) => some r6
            | _ => none
        | _ => none
    else none
  | [] => none

/-- `strptime(s, "%Y-%m-%d")`, returning the year. -/
def strptime_date (l : List Char) : Option Nat :=
  match strptimeYMD l with
  | some (y, m, d, rest) => if rest.isEmpty && validDate y m d then some y else none
  | none => none

/-- `strptime(s, "%Y-%m-%dT%H:%M:%S")`, returning the year. -/
def strptime_naive (l : List Char) : Option Nat :=
  match strptimeYMD l with
  | some (y, m, d, r1) =>
    match strptimeHMS r1 with
    | some r2 => if r2.isEmpty && validDate y m d then some y else none
    | none => none
  | none => none

/-- `strptime(s, "%Y-%m-%dT%H:%M:%S%z")`, returning the year. -/
def strptime_aware (l : List Char) : Option Nat :=
  match strptimeYMD l with
  | some (y, m, d, r1) =>
    match strptimeHMS r1 with
    | some r2 =>
      match pZ r2 with
      | some r3 => if r3.isEmpty && validDate y m d then some y else none
      | none => none
    | none => none
  | none => none

/-- `parse_year(value)`: each format sees only the first `len(fmt)` characters
of the value (19, 17 and 8 respectively), exactly as in the source. -/
def parse_year (value : String) : String :=
  if value = "" then ""
  else
    match strptime_aware (value.data.take 19) with
    | some y => toString y
    | none =>
      match strptime_naive (value.data.take 17) with
      | some y => toString y
      | none =>
        match strptime_date (value.data.take 8) with
        | some y => toString y
        | none => ""

/-- `ALLOWED_CATEGORIES` (a Python set; only membership is used). -/
def ALLOWED_CATEGORIES : List String :=
  ["Engineering", "Science", "Fiction", "Nonfiction", "Business",
   "Psychology", "Arts", "Physical Health", "Uncategorized"]

/-- `TAG_CATEGORY_HINTS`, in source order (dict with unique keys). -/
def TAG_CATEGORY_HINTS : List (String × String) :=
  [("comp_programming", "Engineering"),
   ("programming", "Engineering"),
   ("engineering", "Engineering"),
   ("security", "Engineering"),
   ("cloud", "Engineering"),
   ("devops", "Engineering"),
   ("infrastructure", "Engineering"),
   ("web", "Engineering"),
   ("software", "Engineering"),
   ("sci_psychology", "Science"),
   ("literature_19", "Fiction"),
   ("prose_rus_classic", "Fiction"),
   ("child_prose", "Fiction"),
   ("nonfiction", "Nonfiction"),
   ("business", "Business"),
   ("psychology", "Psychology"),
   ("arts", "Arts"),
   ("physical_health", "Physical Health"),
   ("health", "Physical Health"),
   ("fitness", "Physical Health"),
   ("running", "Physical Health")]

/-- `KEYWORD_HINTS`, in source (insertion) order. -/
def KEYWORD_HINTS : List (String × List String) :=
  [("Engineering",
    ["programming", "software", "engineering", "systems", "system", "algorithm",
     "computer", "developer", "devops", "code", "ai", "machine learning", "ml",
     "data science", "cloud", "aws", "azure", "gcp", "kubernetes", "docker",
     "containers", "security", "secure", "infosec", "cybersecurity",
     "network security", "application security", "web security",
     "web application security", "sre", "site reliability", "observability",
     "monitoring", "logging", "infrastructure", "iac", "terraform", "ansible",
     "policy as code"]),
   ("Science",
    ["science", "physics", "chemistry", "biology", "math", "mathematics",
     "discrete math", "discrete mathematics", "astronomy", "geology",
     "cognitive", "neuroscience"]),
   ("Psychology",
    ["psychology", "psychological", "cognitive", "mind", "behavior",
     "behaviour", "brain"]),
   ("Business",
    ["business", "startup", "start-up", "strategy", "management", "leadership",
     "marketing", "sales", "finance", "economics", "entrepreneur"]),
   ("Arts",
    ["art", "arts", "design", "music", "painting", "photography", "film",
     "cinema", "theater", "theatre", "language"]),
   ("Physical Health",
    ["health", "fitness", "exercise", "training", "run", "running", "marathon",
     "triathlon", "sport", "sports", "athlete", "coaching", "diet", "dieting",
     "nutrition", "wellness"]),
   ("Fiction",
    ["novel", "story", "stories", "fiction", "fantasy", "sci-fi",
     "science fiction", "thriller", "romance", "mystery", "prose", "classic"]),
   ("Nonfiction",
    ["nonfiction", "non-fiction", "biography", "memoir", "history", "essay",
     "reportage"])]

/-- First token of the classifier reply: `re.split(r"[\n,;]", guess)[0]`. -/
def split_first_token (s : String) : String :=
  String.mk (s.data.takeWhile (fun c => ¬(c = '\n' ∨ c = ',' ∨ c = ';')))

/-- `detect_category_ai`: `none` models both a missing `OPENAI_API_KEY` and
any network/timeout/parse failure; `reply` is the reply text otherwise.
Only a reply that (after stripping and taking the first token) exactly
matches an allowed category is accepted. -/
def detect_category_ai (apiKey : String) (reply : Option String)
    (title : String) (tags : List String) (comments : String) : Option String :=
  if apiKey = "" then none
  else
    match reply with
    | none => none
    | some content =>
      let guess := pyStrip content
      let guess2 := pyStrip (split_first_token guess)
      if guess2 ∈ ALLOWED_CATEGORIES then some guess2 else none

/-- The `for tag in tags` loop of `detect_category` step 1. -/
def tag_category_loop : List String → Option String
  | [] => none
  | t :: rest =>
    match List.lookup (pyLower t) TAG_CATEGORY_HINTS with
    | some m => if m ∈ ALLOWED_CATEGORIES then some m else tag_category_loop rest
    | none => tag_category_loop rest

/-- `" ".join(tags + [title, comments or ""]).lower()`. -/
def text_blob (title : String) (tags : List String) (comments : String) : String :=
  pyLower (joinWith " " (tags ++ [title, comments]))

/-- The inner `for hint in hints` loop of `detect_category` step 2. -/
def hint_match (blob : List Char) : List String → Bool
  | [] => false
  | h :: rest => containsSub h.data blob || hint_match blob rest

/-- The `for category, hints in KEYWORD_HINTS.items()` loop of step 2. -/
def keyword_loop (blob : List Char) : List (String × List String) → Option String
  | [] => none
  | (cat, hints) :: rest =>
    if hint_match blob hints then
      some (if cat ∈ ALLOWED_CATEGORIES then cat else "Uncategorized")
    else keyword_loop blob rest

/-- `detect_category(title, tags, comments)` with the classifier reply passed
explicitly (step 0), then tag table (step 1), keyword scan (step 2),
fallback (step 3). -/
def detect_category (apiKey : String) (reply : Option String)
    (title : String) (tags : List String) (comments : String) : String :=
  match detect_category_ai apiKey reply title tags comments with
  | some g => g
  | none =>
    match tag_category_loop tags with
    | some c => c
    | none =>
      match keyword_loop (text_blob title tags comments).data KEYWORD_HINTS with
      | some c => c
      | none => "Uncategorized"

/-- Filesystem oracle for `maybe_copy_cover`: `fileOk p` models
`Path(p).expanduser().exists() and .is_file()`, and `copyOk p` models
`shutil.copyfile` succeeding for source `p`. -/
structure FS where
  fileOk : String → Bool
  copyOk : String → Bool

/-- Final path component (`pathlib.Path(...).name`): the last nonempty
slash-separated component. -/
def path_name (s : String) : String :=
  ((splitOnChar '/' s).filter (fun p => p ≠ "")).getLastD ""

/-- `pathlib` suffix of the final component: from the last dot, provided that
dot is neither the first nor the last character of the name. -/
def path_suffix (s : String) : String :=
  let n := (path_name s).data
  let afterRev := n.reverse.takeWhile (fun c => c ≠ '.')
  if afterRev.length = n.length then ""
  else
    let i := n.length - afterRev.length - 1
    if 0 < i ∧ i < n.length - 1 then String.mk (n.drop i) else ""

/-- The source constant `BOOK_COVERS_URL_PREFIX` (renamed here). -/
def BOOK_COVERS_URL_BASE : String := "assets/img/book_covers"

/-- `maybe_copy_cover(path_str, row)`: empty unless the source file exists and
the copy succeeds; otherwise the relative URL of the copied cover, whose
filename is the row's slug plus the source extension (default `.jpg`). -/
def maybe_copy_cover (fs : FS) (path_str : String) (row : Row) : String :=
  if fs.fileOk path_str = false then ""
  else
    let slug := make_slug row
    let ext := if path_suffix path_str ≠ "" then path_suffix path_str else ".jpg"
    let dest_name := slug ++ ext
    if fs.copyOk path_str = false then ""
    else BOOK_COVERS_URL_BASE ++ "/" ++ dest_name

/-- `find_cover(row, isbn)`. -/
def find_cover (fs : FS) (row : Row) (isbn : String) : String :=
  let cover := pyStrip (row.cover.getD "")
  if cover ≠ "" then
    let local_cover := maybe_copy_cover fs cover row
    if local_cover ≠ "" then local_cover else cover
  else if isbn ≠ "" then
    "https://covers.openlibrary.org/b/isbn/" ++ isbn ++ "-L.jpg"
  else
    let asin := extract_asin_from_identifiers (row.identifiers.getD "")
    if asin ≠ "" then
      "https://covers.openlibrary.org/b/asin/" ++ asin ++ "-L.jpg"
    else ""

/-- `title = row.get("title") or "Untitled"`. -/
def fm_title (row : Row) : String :=
  pyOr (row.title.getD "") "Untitled"

/-- `authors = row.get("authors") or row.get("author") or ""`. -/
def row_authors (row : Row) : String :=
  pyOr (pyOr (row.authors.getD "") (row.author.getD "")) ""

/-- `stars = (row.get("rating") or "").strip()`. -/
def fm_stars (row : Row) : String :=
  pyStrip (row.rating.getD "")

/-- `tags = to_list(row.get("tags", ""))`. -/
def fm_tags (row : Row) : List String :=
  to_list (row.tags.getD "")

/-- `languages = to_list(row.get("languages", ""))`. -/
def fm_languages (row : Row) : List String :=
  to_list (row.languages.getD "")

/-- `category = detect_category(title, tags, row.get("comments", ""))`. -/
def fm_category (apiKey : String) (reply : Option String) (row : Row) : String :=
  detect_category apiKey reply (fm_title row) (fm_tags row) (row.comments.getD "")

/-- The `lines` list of `build_front_matter`, with `None` entries as `none`. -/
def front_matter_lines (fs : FS) (apiKey : String) (reply : Option String)
    (row : Row) : List (Option String) :=
  [some "---",
   some "layout: book-review",
   some ("title: " ++ quote (fm_title row)),
   if row_authors row ≠ "" then some ("author: " ++ quote (row_authors row)) else none,
   if find_isbn row ≠ "" then some ("isbn: " ++ find_isbn row) else none,
   if find_cover fs row (find_isbn row) ≠ "" then
     some ("cover: " ++ find_cover fs row (find_isbn row)) else none,
   if parse_year (row.pubdate.getD "") ≠ "" then
     some ("released: " ++ parse_year (row.pubdate.getD "")) else none,
   if fm_stars row ≠ "" then some ("stars: " ++ fm_stars row) else none,
   if fm_languages row ≠ [] then
     some ("languages: " ++ render_list (fm_languages row)) else none,
   if fm_tags row ≠ [] then some ("tags: " ++ render_list (fm_tags row)) else none,
   if fm_category apiKey reply row ≠ "" then
     some ("categories: " ++ render_list [fm_category apiKey reply row]) else none,
   some "status: Planned",
   some "---"]

/-- Python's `[line for line in lines if line]` over `Optional[str]`:
drop `None` and empty strings. -/
def pyFilterTruthy (l : List (Option String)) : List String :=
  l.filterMap (fun o => o.bind (fun s => if s = "" then none else some s))

/-- `build_front_matter(row)` (returns the list of emitted lines). -/
def build_front_matter (fs : FS) (apiKey : String) (reply : Option String)
    (row : Row) : List String :=
  pyFilterTruthy (front_matter_lines fs apiKey reply row)

/-- A row whose only ISBN-bearing field is the free-text description. -/
def rowCommentsOnly : Row :=
  ⟨none, none, none, none, none,
   some "The ISBN of this book is 978-3-16-148410-0.",
   none, none, none, none, none, none, none⟩

/-- A row whose identifiers column is semicolon-separated and contains an
`isbn:` pair with a valid ISBN-13 value. -/
def rowSemicolonIdent : Row :=
  ⟨none, none, none, some "", some "foo:bar;isbn:9783161484100",
   none, none, none, none, none, none, none, none⟩

/-- A row supplying a cover path with surrounding whitespace. -/
def rowPaddedCover : Row :=
  ⟨none, none, none, none, none, none, none, none, none, none, none, none,
   some " x.jpg "⟩

/-- Does a comma-split identifiers part carry a usable `isbn:` pair?
(spec-side predicate matching the loop condition of
`extract_isbn_from_identifiers`). -/
def isbnPairB (part : String) : Bool :=
  match splitFirstAux ':' part.data with
  | none => false
  | some kv =>
    decide (pyStrip (pyLower (String.mk kv.1)) = "isbn") &&
      decide (clean_isbn (String.mk kv.2) ≠ "")

/-- Does a tag hit the tag-to-category table with an allowed category?
(spec-side predicate matching the loop condition of `detect_category`). -/
def tag_hint_hit (t : String) : Bool :=
  match List.lookup (pyLower t) TAG_CATEGORY_HINTS with
  | some m => decide (m ∈ ALLOWED_CATEGORIES)
  | none => false

/-- A row whose identifiers column is comma-separated, as the script expects. -/
def rowCommaIdent : Row :=
  ⟨none, none, none, none, some "mobi-asin:B00ABC,isbn:978-3-16-148410-0",
   none, none, none, none, none, none, none, none⟩

/-- A row with only a uuid. -/
def rowUuid : Row :=
  ⟨none, none, none, none, none, none, some "abc-123", none, none, none, none,
   none, none⟩

/-- A row with only a numeric id. -/
def rowId : Row :=
  ⟨none, none, none, none, none, none, none, some "42", none, none, none,
   none, none⟩

/-- A row with only a title. -/
def rowTitleOnly : Row :=
  ⟨some "Hello, World!", none, none, none, none, none, none, none, none, none,
   none, none, none⟩

/-- A row with a hyphenated direct ISBN-13. -/
def rowDirectIsbn : Row :=
  ⟨none, none, none, some "978-3-16-148410-0", none, none, none, none, none,
   none, none, none, none⟩

/-- A row with no cover and no identifiers. -/
def rowNoCover : Row :=
  ⟨none, none, none, none, none, none, none, none, none, none, none, none,
   none⟩

/-!  General-purpose lemmas shared by the claim theorems. -/

/-- `String.append` acts as append on the underlying character lists. -/
theorem string_data_append (a b : String) : (a ++ b).data = a.data ++ b.data := rfl

/-- Strings with distinct head characters (ignoring appended tails) differ. -/
theorem string_ne_of_head (a b : Char) (p x q : String)
    (hp : p.data.head? = some a) (hq : q.data.head? = some b) (hab : a ≠ b) :
    p ++ x ≠ q := by
  intro h
  have h2 : (p ++ x).data.head? = q.data.head? := congrArg (fun s => s.data.head?) h
  rw [string_data_append] at h2
  cases hpd : p.data with
  | nil => rw [hpd] at hp; exact Option.noConfusion hp
  | cons c t =>
    rw [hpd] at hp h2
    have hc : c = a := Option.some.inj hp
    rw [hq] at h2
    exact hab (hc ▸ Option.some.inj h2)

/-- Strings that differ on their first `n` characters differ, where `n` is
the length of the left string's constant head. -/
theorem string_ne_of_take (n : Nat) (p x q : String)
    (hlen : p.data.length = n) (hne : p.data ≠ q.data.take n) : p ++ x ≠ q := by
  intro h
  have h2 : (p ++ x).data.take n = q.data.take n := congrArg (fun s => s.data.take n) h
  rw [string_data_append, ← hlen, List.take_left] at h2
  exact hne (hlen ▸ h2)

/-- Two prefixed strings differ when their key literals differ on the first
`n` characters (with `n` within both literals). -/
theorem string_ne_of_take_two (n : Nat) (p x q y : String)
    (hp : n ≤ p.data.length) (hq : n ≤ q.data.length)
    (hne : p.data.take n ≠ q.data.take n) : p ++ x ≠ q ++ y := by
  intro h
  have h2 : (p ++ x).data.take n = (q ++ y).data.take n :=
    congrArg (fun s => s.data.take n) h
  rw [string_data_append, string_data_append, List.take_append_of_le_length hp,
    List.take_append_of_le_length hq] at h2
  exact hne h2

/-- Appending anything to a nonempty string stays nonempty. -/
theorem append_left_ne_empty (p x : String) (hp : p.data ≠ []) : p ++ x ≠ "" := by
  intro h
  have h2 : (p ++ x).data = ("" : String).data := congrArg String.data h
  rw [string_data_append] at h2
  exact hp (List.append_eq_nil.mp h2).1

/-- Members of `dropWhile` come from the original list. -/
theorem mem_of_mem_dropWhile {p : Char → Bool} {c : Char} :
    ∀ {l : List Char}, c ∈ l.dropWhile p → c ∈ l := by
  intro l
  induction l with
  | nil => intro h; exact absurd h (List.not_mem_nil c)
  | cons a t ih =>
    intro h
    rw [List.dropWhile_cons] at h
    by_cases hpa : p a = true
    · rw [if_pos hpa] at h; exact List.mem_cons_of_mem a (ih h)
    · rw [if_neg hpa] at h; exact h

/-- Members of a stripped string come from the original string. -/
theorem mem_of_mem_pyStrip {c : Char} {s : String} (h : c ∈ (pyStrip s).data) :
    c ∈ s.data := by
  unfold pyStrip pyStripList at h
  simp only [String.data] at h
  rw [List.mem_reverse] at h
  have h1 := mem_of_mem_dropWhile h
  rw [List.mem_reverse] at h1
  exact mem_of_mem_dropWhile h1

/-- C1: the comment-scan regex of `find_isbn` is written `\\d` inside a raw
string, so it looks for a literal backslash followed by letters `d` instead
of digit groups; on a row whose description contains the 978-prefixed
ISBN-13 `978-3-16-148410-0` (which `clean_isbn` would accept, as the second
conjunct shows), `find_isbn` extracts nothing and returns the empty string. -/
theorem find_isbn_comment_regex_eval :
    find_isbn rowCommentsOnly = "" ∧ clean_isbn "978-3-16-148410-0" = "9783161484100" := by
  constructor
  · rfl
  · rfl

/-- C2: `parse_year` hands each format only `value[:len(fmt)]` characters
(19, 17 and 8), which chops standard zero-padded dates — `"2021-03-04"`
becomes `"2021-03-"` for `"%Y-%m-%d"` — so all three supported formats fail
on their own canonical zero-padded values and `parse_year` returns `""`;
only abbreviated variants such as `"2021-3-4"` parse. -/
theorem parse_year_truncation_eval :
    parse_year "2021-03-04" = "" ∧
    parse_year "2021-03-04T05:06:07" = "" ∧
    parse_year "2021-03-04T05:06:07+00:00" = "" ∧
    parse_year "2021-3-4" = "2021" := by
  exact ⟨rfl, rfl, rfl, rfl⟩

/-- C3 counterexample: the script splits the identifiers column on commas,
not semicolons, so on a semicolon-separated identifiers value containing
`isbn:9783161484100` (and no direct ISBN, no comments) `find_isbn` returns
`""` instead of the claimed `"9783161484100"`. -/
theorem extract_isbn_semicolon_cex :
    find_isbn rowSemicolonIdent = "" ∧
    find_isbn rowSemicolonIdent ≠ "9783161484100" := by
  refine ⟨rfl, ?_⟩
  intro h
  exact absurd h (by decide)

/-- C6 counterexample: `to_list` splits on the class `[;, ]` — semicolon,
comma, space — not on all whitespace, so a tab does not separate tokens. -/
theorem to_list_tab_cex :
    to_list "a\tb" = ["a\tb"] ∧ to_list "a\tb" ≠ ["a", "b"] := by
  refine ⟨rfl, ?_⟩
  intro h
  exact absurd h (by decide)

/-- C7 counterexample: the tag loop returns the category of the *first* tag
with a table entry, so a row tagged `["health", "programming"]` is
classified "Physical Health", not "Engineering", although its tags contain
"programming" and the classifier is disabled. -/
theorem detect_category_first_tag_cex :
    detect_category "" none "" ["health", "programming"] "" = "Physical Health" ∧
    detect_category "" none "" ["health", "programming"] "" ≠ "Engineering" := by
  refine ⟨rfl, ?_⟩
  intro h
  exact absurd h (by decide)

/-- C10 counterexample: with a supplied cover value `" x.jpg "` that does not
point to an existing file, and a resolved ISBN, `find_cover` returns the
*stripped* cover value `"x.jpg"` — neither the original raw value unchanged
nor the ISBN cover-service URL that clause (b) of the claim would give when
reading "(a) … points to an existing local file" strictly. -/
theorem find_cover_trim_cex :
    find_cover ⟨fun _ => false, fun _ => false⟩ rowPaddedCover "9783161484100" = "x.jpg" ∧
    find_cover ⟨fun _ => false, fun _ => false⟩ rowPaddedCover "9783161484100" ≠ " x.jpg " ∧
    find_cover ⟨fun _ => false, fun _ => false⟩ rowPaddedCover "9783161484100" ≠
      "https://covers.openlibrary.org/b/isbn/9783161484100-L.jpg" := by
  refine ⟨rfl, ?_, ?_⟩
  · intro h; exact absurd h (by decide)
  · intro h; exact absurd h (by decide)

/-- A classifier reply is only ever accepted when it is an allowed category. -/
theorem detect_category_ai_mem (apiKey : String) (reply : Option String)
    (title : String) (tags : List String) (comments : String) (g : String)
    (h : detect_category_ai apiKey reply title tags comments = some g) :
    g ∈ ALLOWED_CATEGORIES := by
  unfold detect_category_ai at h
  by_cases hk : apiKey = ""
  · rw [if_pos hk] at h; exact Option.noConfusion h
  · rw [if_neg hk] at h
    cases reply with
    | none => exact Option.noConfusion h
    | some content =>
      simp only at h
      split at h
      · rename_i hmem
        exact (Option.some.inj h) ▸ hmem
      · exact Option.noConfusion h

/-- The tag loop only returns categories it has checked to be allowed. -/
theorem tag_category_loop_mem :
    ∀ (tags : List String) (c : String),
      tag_category_loop tags = some c → c ∈ ALLOWED_CATEGORIES := by
  intro tags
  induction tags with
  | nil => intro c h; exact Option.noConfusion h
  | cons t rest ih =>
    intro c h
    unfold tag_category_loop at h
    cases hlk : List.lookup (pyLower t) TAG_CATEGORY_HINTS with
    | none => simp only [hlk] at h; exact ih c h
    | some m =>
      simp only [hlk] at h
      by_cases hmem : m ∈ ALLOWED_CATEGORIES
      · rw [if_pos hmem] at h; exact (Option.some.inj h) ▸ hmem
      · rw [if_neg hmem] at h; exact ih c h

/-- The keyword loop only returns checked categories or "Uncategorized". -/
theorem keyword_loop_mem :
    ∀ (l : List (String × List String)) (blob : List Char) (c : String),
      keyword_loop blob l = some c → c ∈ ALLOWED_CATEGORIES := by
  intro l
  induction l with
  | nil => intro blob c h; exact Option.noConfusion h
  | cons p rest ih =>
    intro blob c h
    obtain ⟨cat, hints⟩ := p
    unfold keyword_loop at h
    by_cases hm : hint_match blob hints = true
    · rw [if_pos hm] at h
      by_cases hmem : cat ∈ ALLOWED_CATEGORIES
      · rw [if_pos hmem] at h; exact (Option.some.inj h) ▸ hmem
      · rw [if_neg hmem] at h
        have : c = "Uncategorized" := (Option.some.inj h).symm
        rw [this]; decide
    · rw [if_neg hm] at h; exact ih blob c h

/-- C8: whatever the classifier replies (including any failure, modelled by
`none`) and whatever the row contents, `detect_category` returns a member of
the fixed `ALLOWED_CATEGORIES` set. -/
theorem detect_category_allowed (apiKey : String) (reply : Option String)
    (title : String) (tags : List String) (comments : String) :
    detect_category apiKey reply title tags comments ∈ ALLOWED_CATEGORIES := by
  unfold detect_category
  cases hai : detect_category_ai apiKey reply title tags comments with
  | some g =>
    exact detect_category_ai_mem apiKey reply title tags comments g hai
  | none =>
    cases htag : tag_category_loop tags with
    | some c => exact tag_category_loop_mem tags c htag
    | none =>
      cases hkw : keyword_loop (text_blob title tags comments).data KEYWORD_HINTS with
      | some c => exact keyword_loop_mem KEYWORD_HINTS _ c hkw
      | none => decide

/-- With no API key configured the classifier step yields nothing. -/
theorem detect_category_ai_no_key (reply : Option String)
    (title : String) (tags : List String) (comments : String) :
    detect_category_ai "" reply title tags comments = none := rfl

/-- If `find?` locates the first tag hitting the hint table, the tag loop
returns precisely that tag's (allowed) category. -/
theorem tag_category_loop_of_find? :
    ∀ (tags : List String) (t0 : String),
      tags.find? tag_hint_hit = some t0 →
      ∃ m, List.lookup (pyLower t0) TAG_CATEGORY_HINTS = some m ∧
        m ∈ ALLOWED_CATEGORIES ∧ tag_category_loop tags = some m := by
  intro tags
  induction tags with
  | nil => intro t0 h; exact Option.noConfusion h
  | cons t rest ih =>
    intro t0 hfind
    by_cases hh : tag_hint_hit t = true
    · rw [List.find?_cons_of_pos _ hh] at hfind
      have ht0 : t = t0 := Option.some.inj hfind
      subst ht0
      unfold tag_hint_hit at hh
      cases hlk : List.lookup (pyLower t) TAG_CATEGORY_HINTS with
      | none => rw [hlk] at hh; exact Bool.noConfusion hh
      | some m =>
        rw [hlk] at hh
        have hmem : m ∈ ALLOWED_CATEGORIES := of_decide_eq_true hh
        refine ⟨m, rfl, hmem, ?_⟩
        unfold tag_category_loop
        simp only [hlk]
        rw [if_pos hmem]
    · rw [List.find?_cons_of_neg _ hh] at hfind
      obtain ⟨m, h1, h2, h3⟩ := ih t0 hfind
      refine ⟨m, h1, h2, ?_⟩
      have hff : tag_hint_hit t = false := by
        cases hb : tag_hint_hit t with
        | true => exact absurd hb hh
        | false => rfl
      unfold tag_hint_hit at hff
      unfold tag_category_loop
      cases hlk : List.lookup (pyLower t) TAG_CATEGORY_HINTS with
      | none => simp only [hlk]; exact h3
      | some m2 =>
        rw [hlk] at hff
        have : m2 ∉ ALLOWED_CATEGORIES := of_decide_eq_false hff
        simp only [hlk]
        rw [if_neg this]
        exact h3

/-- If no tag hits the hint table, the tag loop yields nothing. -/
theorem tag_category_loop_none :
    ∀ (tags : List String), (∀ t ∈ tags, tag_hint_hit t = false) →
      tag_category_loop tags = none := by
  intro tags
  induction tags with
  | nil => intro _; rfl
  | cons t rest ih =>
    intro hall
    have hff := hall t (List.mem_cons_self t rest)
    unfold tag_hint_hit at hff
    unfold tag_category_loop
    cases hlk : List.lookup (pyLower t) TAG_CATEGORY_HINTS with
    | none =>
      simp only [hlk]
      exact ih (fun x hx => hall x (List.mem_cons_of_mem t hx))
    | some m =>
      rw [hlk] at hff
      have : m ∉ ALLOWED_CATEGORIES := of_decide_eq_false hff
      simp only [hlk]
      rw [if_neg this]
      exact ih (fun x hx => hall x (List.mem_cons_of_mem t hx))

/-- C7 (amended): with the classifier disabled, the tag table is consulted
before the keyword scan and the *first* tag with a table entry decides — in
particular, whenever that first matching tag is "programming"
(case-insensitively), the category is "Engineering" regardless of any
keyword matches — and with no tag match and no keyword match the category
is the fallback "Uncategorized". -/
theorem detect_category_tag_priority :
    (∀ (reply : Option String) (title comments : String) (tags : List String)
        (t0 : String),
        tags.find? tag_hint_hit = some t0 → pyLower t0 = "programming" →
        detect_category "" reply title tags comments = "Engineering") ∧
    (∀ (reply : Option String) (title comments : String) (tags : List String),
        (∀ t ∈ tags, tag_hint_hit t = false) →
        keyword_loop (text_blob title tags comments).data KEYWORD_HINTS = none →
        detect_category "" reply title tags comments = "Uncategorized") := by
  constructor
  · intro reply title comments tags t0 hfind hlow
    obtain ⟨m, hlk, hmem, hloop⟩ := tag_category_loop_of_find? tags t0 hfind
    rw [hlow] at hlk
    have he : List.lookup "programming" TAG_CATEGORY_HINTS = some "Engineering" := rfl
    rw [he] at hlk
    have hm : m = "Engineering" := (Option.some.inj hlk).symm
    simp only [detect_category, detect_category_ai_no_key, hloop, hm]
  · intro reply title comments tags hall hkw
    have hloop := tag_category_loop_none tags hall
    simp only [detect_category, detect_category_ai_no_key, hloop, hkw]

/-- Witness for C7: a row tagged `["Programming", "health"]` with
health-flavoured title text is still classified "Engineering". -/
theorem detect_category_tag_priority_wit :
    detect_category "" none "Running fitness" ["Programming", "health"] "" =
      "Engineering" := by
  exact detect_category_tag_priority.1 none "Running fitness" ""
    ["Programming", "health"] "Programming" rfl rfl

/-- The identifiers loop returns the cleaned value of the first comma-split
part that carries a usable `isbn:` pair. -/
theorem extractIsbnLoop_of_find? :
    ∀ (parts : List String) (part : String),
      parts.find? isbnPairB = some part →
      ∃ k v, splitFirstAux ':' part.data = some (k, v) ∧
        pyStrip (pyLower (String.mk k)) = "isbn" ∧
        clean_isbn (String.mk v) ≠ "" ∧
        extractIsbnLoop parts = clean_isbn (String.mk v) := by
  intro parts
  induction parts with
  | nil => intro part h; exact Option.noConfusion h
  | cons p rest ih =>
    intro part hfind
    by_cases hh : isbnPairB p = true
    · rw [List.find?_cons_of_pos _ hh] at hfind
      have hp : p = part := Option.some.inj hfind
      subst hp
      unfold isbnPairB at hh
      cases hsp : splitFirstAux ':' p.data with
      | none => rw [hsp] at hh; exact Bool.noConfusion hh
      | some kv =>
        obtain ⟨k0, v0⟩ := kv
        rw [hsp] at hh
        rw [Bool.and_eq_true] at hh
        have hkey : pyStrip (pyLower (String.mk k0)) = "isbn" := of_decide_eq_true hh.1
        have hcl : clean_isbn (String.mk v0) ≠ "" := of_decide_eq_true hh.2
        refine ⟨k0, v0, rfl, hkey, hcl, ?_⟩
        unfold extractIsbnLoop
        simp only [hsp]
        rw [if_pos hkey, if_pos hcl]
    · rw [List.find?_cons_of_neg _ hh] at hfind
      obtain ⟨k, v, h1, h2, h3, h4⟩ := ih part hfind
      refine ⟨k, v, h1, h2, h3, ?_⟩
      have hff : isbnPairB p = false := by
        cases hb : isbnPairB p with
        | true => exact absurd hb hh
        | false => rfl
      unfold isbnPairB at hff
      unfold extractIsbnLoop
      cases hsp : splitFirstAux ':' p.data with
      | none => simp only [hsp]; exact h4
      | some kv =>
        obtain ⟨k0, v0⟩ := kv
        rw [hsp] at hff
        have hff2 : (decide (pyStrip (pyLower (String.mk k0)) = "isbn") &&
            decide (clean_isbn (String.mk v0) ≠ "")) = false := hff
        simp only [hsp]
        by_cases hkey : pyStrip (pyLower (String.mk k0)) = "isbn"
        · rw [decide_eq_true hkey, Bool.true_and] at hff2
          have hceq : ¬ clean_isbn (String.mk v0) ≠ "" := of_decide_eq_false hff2
          rw [if_pos hkey, if_neg hceq]
          exact h4
        · rw [if_neg hkey]
          exact h4

/-- C3 (amended): for a row with no usable direct ISBN whose
*comma*-separated identifiers column contains a pair whose key strips and
lowercases to "isbn" and whose value cleans to 10 or 13 ISBN characters,
`find_isbn` returns the cleaned value of the first such pair. -/
theorem find_isbn_identifiers_comma (row : Row) (part : String)
    (hdirect : clean_isbn (removeHyphens (row.isbn.getD "")) = "")
    (hfind : (splitOnChar ',' (row.identifiers.getD "")).find? isbnPairB = some part) :
    ∃ k v, splitFirstAux ':' part.data = some (k, v) ∧
      pyStrip (pyLower (String.mk k)) = "isbn" ∧
      clean_isbn (String.mk v) ≠ "" ∧
      find_isbn row = clean_isbn (String.mk v) := by
  obtain ⟨k, v, h1, h2, h3, h4⟩ := extractIsbnLoop_of_find? _ _ hfind
  refine ⟨k, v, h1, h2, h3, ?_⟩
  have hval : row.identifiers.getD "" ≠ "" := by
    intro hv
    rw [hv] at hfind
    rw [show (splitOnChar ',' "").find? isbnPairB = none from rfl] at hfind
    exact Option.noConfusion hfind
  have hex : extract_isbn_from_identifiers (row.identifiers.getD "") =
      clean_isbn (String.mk v) := by
    unfold extract_isbn_from_identifiers
    rw [if_neg hval]
    exact h4
  unfold find_isbn
  rw [hdirect]
  have hne : ¬ ("" : String) ≠ "" := by simp
  rw [if_neg hne, hex, if_pos h3]

/-- Witness for C3 (amended): on `rowCommaIdent` the identifiers pair
`isbn:978-3-16-148410-0` resolves to `"9783161484100"`. -/
theorem find_isbn_identifiers_comma_wit :
    find_isbn rowCommaIdent = "9783161484100" := by
  obtain ⟨k, v, h1, h2, h3, h4⟩ :=
    find_isbn_identifiers_comma rowCommaIdent "isbn:978-3-16-148410-0" rfl rfl
  rw [show splitFirstAux ':' ("isbn:978-3-16-148410-0" : String).data =
      some (("isbn" : String).data, ("978-3-16-148410-0" : String).data) from rfl] at h1
  have hkv := Option.some.inj h1
  have hv : ("978-3-16-148410-0" : String).data = v := congrArg Prod.snd hkv
  subst hv
  exact h4

/-- C4: slug derivation prefers a non-empty uuid; else a non-empty id with
the "book-" tag; else the lowercase hyphen-joined alphanumeric-only
transformation of the title ("Hello, World!" gives "hello-world"), with the
fixed fallback "book" when the title is empty or reduces to nothing. -/
theorem make_slug_spec (row : Row) :
    (∀ u, row.uuid = some u → u ≠ "" → make_slug row = u) ∧
    ((row.uuid = none ∨ row.uuid = some "") →
      ∀ i, row.id = some i → i ≠ "" → make_slug row = "book-" ++ i) ∧
    ((row.uuid = none ∨ row.uuid = some "") →
      (row.id = none ∨ row.id = some "") →
      make_slug row = safe_slug (row.title.getD "book")) ∧
    safe_slug "Hello, World!" = "hello-world" ∧
    safe_slug "" = "book" ∧
    safe_slug "??!" = "book" := by
  refine ⟨?_, ?_, ?_, by decide, by decide, by decide⟩
  · intro u hu hne
    unfold make_slug
    simp only [hu, Option.getD_some]
    rw [if_pos hne]
  · intro hu i hi hne
    have hu0 : row.uuid.getD "" = "" := by
      rcases hu with h | h <;> simp [h]
    unfold make_slug
    rw [hu0]
    simp only [hi, Option.getD_some]
    rw [if_neg (by simp), if_pos hne]
  · intro hu hi
    have hu0 : row.uuid.getD "" = "" := by
      rcases hu with h | h <;> simp [h]
    have hi0 : row.id.getD "" = "" := by
      rcases hi with h | h <;> simp [h]
    unfold make_slug
    rw [hu0, hi0]
    rw [if_neg (by simp), if_neg (by simp)]

/-- Witness for C4: the three slug strategies on concrete rows. -/
theorem make_slug_spec_wit :
    make_slug rowUuid = "abc-123" ∧ make_slug rowId = "book-42" ∧
    make_slug rowTitleOnly = "hello-world" := by
  refine ⟨?_, ?_, ?_⟩
  · exact (make_slug_spec rowUuid).1 "abc-123" rfl (by decide)
  · exact (make_slug_spec rowId).2.1 (Or.inl rfl) "42" rfl (by decide)
  · have h := (make_slug_spec rowTitleOnly).2.2.1 (Or.inl rfl) (Or.inl rfl)
    rw [h]
    exact (make_slug_spec rowTitleOnly).2.2.2.1

/-- `clean_isbn` is the identity on strings of 10 or 13 ISBN characters. -/
theorem clean_isbn_of_all (x : String) (hall : ∀ c ∈ x.data, isIsbnChar c = true)
    (hlen : x.data.length = 10 ∨ x.data.length = 13) : clean_isbn x = x := by
  have hf : x.data.filter isIsbnChar = x.data := List.filter_eq_self.mpr hall
  unfold clean_isbn
  rw [hf]
  rcases hlen with h | h
  · rw [if_neg (by simp [String.length, h]), if_pos (by simp [String.length, h])]
  · rw [if_pos (by simp [String.length, h])]

/-- C5: a direct isbn column of digits and hyphens, optionally ending in
`X`/`x`, whose non-hyphen length is 10 or 13, resolves to the hyphen-stripped
string with the digit content unchanged; and whenever the direct candidate
does not clean to 10 or 13 ISBN characters, `find_isbn` moves on to the
identifiers column and then the comment scan. -/
theorem find_isbn_direct_spec :
    (∀ (row : Row) (s : String), row.isbn = some s →
      (∀ c ∈ s.data.dropLast, c.isDigit = true ∨ c = '-') →
      (∀ c, s.data.getLast? = some c → (c.isDigit = true ∨ c = 'X' ∨ c = 'x')) →
      ((s.data.filter (fun c => c ≠ '-')).length = 10 ∨
        (s.data.filter (fun c => c ≠ '-')).length = 13) →
      find_isbn row = removeHyphens s) ∧
    (∀ row : Row, clean_isbn (removeHyphens (row.isbn.getD "")) = "" →
      find_isbn row =
        (if extract_isbn_from_identifiers (row.identifiers.getD "") ≠ "" then
          extract_isbn_from_identifiers (row.identifiers.getD "")
        else scan_comments (row.comments.getD ""))) := by
  constructor
  · intro row s hs h1 h2 hlen
    have hall : ∀ c ∈ (removeHyphens s).data, isIsbnChar c = true := by
      intro c hc
      have hc' : c ∈ s.data.filter (fun c => c ≠ '-') := hc
      rw [List.mem_filter] at hc'
      have hne : c ≠ '-' := of_decide_eq_true hc'.2
      have hmem := hc'.1
      by_cases hnil : s.data = []
      · rw [hnil] at hmem; exact absurd hmem (List.not_mem_nil c)
      · have hsplit := List.dropLast_append_getLast hnil
        rw [← hsplit] at hmem
        rcases List.mem_append.mp hmem with hm | hm
        · rcases h1 c hm with hd | hd
          · simp [isIsbnChar, hd]
          · exact absurd hd hne
        · have hcl : c = s.data.getLast hnil := List.mem_singleton.mp hm
          have hlast : s.data.getLast? = some (s.data.getLast hnil) :=
            List.getLast?_eq_getLast _ hnil
          subst hcl
          rcases h2 _ hlast with hd | hd | hd
          · simp [isIsbnChar, hd]
          · simp [isIsbnChar, hd]
          · simp [isIsbnChar, hd]
    have hlen' : (removeHyphens s).data.length = 10 ∨
        (removeHyphens s).data.length = 13 := hlen
    have hclean := clean_isbn_of_all (removeHyphens s) hall hlen'
    have hne0 : removeHyphens s ≠ "" := by
      intro h0
      have hd := congrArg (fun t => t.data.length) h0
      simp only at hd
      rcases hlen' with h | h <;> rw [h] at hd <;> exact absurd hd (by decide)
    unfold find_isbn
    rw [hs, Option.getD_some, hclean, if_pos hne0]
  · intro row h0
    unfold find_isbn
    rw [h0, if_neg (by simp)]

/-- Witness for C5: the hyphenated direct ISBN `978-3-16-148410-0` resolves
to `9783161484100`. -/
theorem find_isbn_direct_spec_wit :
    find_isbn rowDirectIsbn = "9783161484100" := by
  have h := find_isbn_direct_spec.1 rowDirectIsbn "978-3-16-148410-0" rfl
    (by decide)
    (by
      intro c hc
      have h0 : some '0' = some c :=
        (show ("978-3-16-148410-0" : String).data.getLast? = some '0' from
          rfl).symm.trans hc
      have hc0 : c = '0' := (Option.some.inj h0).symm
      subst hc0
      exact Or.inl (by decide))
    (by decide)
  exact h.trans rfl

/-- Parts produced by the run-splitter contain no separator characters. -/
theorem reSplitRunsAux_no_sep (isSep : Char → Bool) :
    ∀ (l cur : List Char) (inSep : Bool),
      (∀ c ∈ cur, isSep c = false) →
      ∀ part ∈ reSplitRunsAux isSep l cur inSep, ∀ c ∈ part, isSep c = false := by
  intro l
  induction l with
  | nil =>
    intro cur inSep hcur part hpart c hc
    have hp : part = cur.reverse := by
      simpa [reSplitRunsAux] using hpart
    rw [hp, List.mem_reverse] at hc
    exact hcur c hc
  | cons a t ih =>
    intro cur inSep hcur part hpart c hc
    unfold reSplitRunsAux at hpart
    by_cases ha : isSep a = true
    · rw [if_pos ha] at hpart
      cases inSep with
      | true =>
        exact ih [] true (by intro x hx; exact absurd hx (List.not_mem_nil x))
          part hpart c hc
      | false =>
        rcases List.mem_cons.mp hpart with hp | hp
        · rw [hp, List.mem_reverse] at hc
          exact hcur c hc
        · exact ih [] true (by intro x hx; exact absurd hx (List.not_mem_nil x))
            part hp c hc
    · rw [if_neg ha] at hpart
      have ha' : isSep a = false := by
        cases hb : isSep a with
        | true => exact absurd hb ha
        | false => rfl
      refine ih (a :: cur) false ?_ part hpart c hc
      intro x hx
      rcases List.mem_cons.mp hx with hx | hx
      · rw [hx]; exact ha'
      · exact hcur x hx

/-- C6 (amended): `to_list` splits on runs of semicolons, commas and
*spaces* (tab and newline are not separators, though `strip` trims them
from token edges), trims each token, drops empty tokens, preserves order
and performs no deduplication; every returned token is nonempty and free of
separator characters, `"a; b, c  d"` yields exactly `["a","b","c","d"]`,
and the empty field yields the empty list. -/
theorem to_list_spec :
    (∀ (value : String), ∀ t ∈ to_list value,
      t ≠ "" ∧ ∀ c ∈ t.data, isListSep c = false) ∧
    to_list "a; b, c  d" = ["a", "b", "c", "d"] ∧
    to_list " a ;  b " = ["a", "b"] ∧
    to_list "x,y,x" = ["x", "y", "x"] ∧
    to_list "" = [] := by
  refine ⟨?_, by decide, by decide, by decide, rfl⟩
  intro value t ht
  unfold to_list at ht
  by_cases hv : value = ""
  · rw [if_pos hv] at ht
    exact absurd ht (List.not_mem_nil t)
  · rw [if_neg hv] at ht
    rw [List.mem_filter] at ht
    obtain ⟨hmap, hne⟩ := ht
    refine ⟨of_decide_eq_true hne, ?_⟩
    rw [List.mem_map] at hmap
    obtain ⟨part, hpart, hstrip⟩ := hmap
    intro c hc
    rw [← hstrip] at hc
    have hc' : c ∈ part :=
      mem_of_mem_pyStrip hc
    exact reSplitRunsAux_no_sep isListSep value.data [] false
      (by intro x hx; exact absurd hx (List.not_mem_nil x)) part hpart c hc'

/-- Witness for C6: the token "a" of `to_list "a; b, c  d"` is nonempty and
separator-free. -/
theorem to_list_spec_wit :
    ("a" : String) ≠ "" ∧ ∀ c ∈ ("a" : String).data, isListSep c = false :=
  to_list_spec.1 "a; b, c  d" "a" (by decide)

/-- C10 (amended): cover resolution, first hit wins: (a) a supplied
(whitespace-trimmed) cover value that points to an existing local file and
copies successfully yields the relative cover-directory path derived from
the row's slug and the source extension (default `.jpg`); a supplied cover
whose file is missing or whose copy fails yields the trimmed cover value
itself (never falling through to the later strategies); (b) with no cover
supplied, a resolved ISBN yields the ISBN-keyed cover-service URL; (c) else
an ASIN extracted from identifiers yields the ASIN-keyed URL; (d) else the
result is empty. -/
theorem find_cover_spec (fs : FS) (row : Row) (isbn : String) :
    (pyStrip (row.cover.getD "") ≠ "" →
      fs.fileOk (pyStrip (row.cover.getD "")) = true →
      fs.copyOk (pyStrip (row.cover.getD "")) = true →
      find_cover fs row isbn =
        BOOK_COVERS_URL_BASE ++ "/" ++
          (make_slug row ++
            (if path_suffix (pyStrip (row.cover.getD "")) ≠ "" then
              path_suffix (pyStrip (row.cover.getD "")) else ".jpg"))) ∧
    (pyStrip (row.cover.getD "") ≠ "" →
      (fs.fileOk (pyStrip (row.cover.getD "")) = false ∨
        fs.copyOk (pyStrip (row.cover.getD "")) = false) →
      find_cover fs row isbn = pyStrip (row.cover.getD "")) ∧
    (pyStrip (row.cover.getD "") = "" → isbn ≠ "" →
      find_cover fs row isbn =
        "https://covers.openlibrary.org/b/isbn/" ++ isbn ++ "-L.jpg") ∧
    (pyStrip (row.cover.getD "") = "" → isbn = "" →
      extract_asin_from_identifiers (row.identifiers.getD "") ≠ "" →
      find_cover fs row isbn =
        "https://covers.openlibrary.org/b/asin/" ++
          extract_asin_from_identifiers (row.identifiers.getD "") ++ "-L.jpg") ∧
    (pyStrip (row.cover.getD "") = "" → isbn = "" →
      extract_asin_from_identifiers (row.identifiers.getD "") = "" →
      find_cover fs row isbn = "") := by
  refine ⟨?_, ?_, ?_, ?_, ?_⟩
  · intro h1 hfile hcopy
    unfold find_cover
    rw [if_pos h1]
    have hmc : maybe_copy_cover fs (pyStrip (row.cover.getD "")) row =
        BOOK_COVERS_URL_BASE ++ "/" ++
          (make_slug row ++
            (if path_suffix (pyStrip (row.cover.getD "")) ≠ "" then
              path_suffix (pyStrip (row.cover.getD "")) else ".jpg")) := by
      unfold maybe_copy_cover
      rw [hfile, hcopy]
      rw [if_neg (by simp), if_neg (by simp)]
    rw [hmc]
    rw [if_pos (append_left_ne_empty (BOOK_COVERS_URL_BASE ++ "/") _ (by decide))]
  · intro h1 hor
    unfold find_cover
    rw [if_pos h1]
    have hmc : maybe_copy_cover fs (pyStrip (row.cover.getD "")) row = "" := by
      unfold maybe_copy_cover
      by_cases hfo : fs.fileOk (pyStrip (row.cover.getD "")) = false
      · rw [if_pos hfo]
      · rw [if_neg hfo]
        rcases hor with h | h
        · exact absurd h hfo
        · rw [h]
          rw [if_pos rfl]
    rw [hmc]
    rw [if_neg (by simp)]
  · intro h0 hisbn
    unfold find_cover
    rw [if_neg (by rw [h0]; simp), if_pos hisbn]
  · intro h0 hisbn hasin
    unfold find_cover
    rw [if_neg (by rw [h0]; simp), if_neg (by rw [hisbn]; simp), if_pos hasin]
  · intro h0 hisbn hasin
    unfold find_cover
    rw [if_neg (by rw [h0]; simp), if_neg (by rw [hisbn]; simp),
      if_neg (by rw [hasin]; simp)]

/-- Witness for C10: with no cover supplied and a resolved ISBN, the cover is
the Open Library URL keyed by the ISBN. -/
theorem find_cover_spec_wit :
    find_cover ⟨fun _ => false, fun _ => false⟩ rowNoCover "9783161484100" =
      "https://covers.openlibrary.org/b/isbn/9783161484100-L.jpg" :=
  (find_cover_spec ⟨fun _ => false, fun _ => false⟩ rowNoCover
    "9783161484100").2.2.1 rfl (by decide)

/-- Every emitted front-matter line is one of the three constant lines or
carries one of the fixed key literals, and each optional header line occurs
only when its derived value is non-empty. -/
theorem front_matter_mem_shape (fs : FS) (apiKey : String) (reply : Option String)
    (row : Row) (line : String)
    (h : line ∈ build_front_matter fs apiKey reply row) :
    line = "---" ∨ line = "layout: book-review" ∨ line = "status: Planned" ∨
    (∃ z, line = "title: " ++ z) ∨
    (row_authors row ≠ "" ∧ ∃ z, line = "author: " ++ z) ∨
    (find_isbn row ≠ "" ∧ ∃ z, line = "isbn: " ++ z) ∨
    (find_cover fs row (find_isbn row) ≠ "" ∧ ∃ z, line = "cover: " ++ z) ∨
    (parse_year (row.pubdate.getD "") ≠ "" ∧ ∃ z, line = "released: " ++ z) ∨
    (fm_stars row ≠ "" ∧ ∃ z, line = "stars: " ++ z) ∨
    (fm_languages row ≠ [] ∧ ∃ z, line = "languages: " ++ z) ∨
    (fm_tags row ≠ [] ∧ ∃ z, line = "tags: " ++ z) ∨
    (fm_category apiKey reply row ≠ "" ∧ ∃ z, line = "categories: " ++ z) := by
  unfold build_front_matter pyFilterTruthy at h
  rw [List.mem_filterMap] at h
  obtain ⟨o, ho, heq⟩ := h
  unfold front_matter_lines at ho
  simp only [List.mem_cons, List.not_mem_nil, or_false] at ho
  rcases ho with h | h | h | h | h | h | h | h | h | h | h | h | h
  · subst h
    have heq2 : some ("---" : String) = some line := heq
    exact Or.inl (Option.some.inj heq2).symm
  · subst h
    have heq2 : some ("layout: book-review" : String) = some line := heq
    exact Or.inr (Or.inl (Option.some.inj heq2).symm)
  · subst h
    have heq2 : some ("title: " ++ quote (fm_title row)) = some line := heq
    exact Or.inr (Or.inr (Or.inr (Or.inl
      ⟨quote (fm_title row), (Option.some.inj heq2).symm⟩)))
  · by_cases hcond : row_authors row ≠ ""
    · rw [if_pos hcond] at h
      subst h
      have heq2 : some ("author: " ++ quote (row_authors row)) = some line := heq
      exact Or.inr (Or.inr (Or.inr (Or.inr (Or.inl
        ⟨hcond, quote (row_authors row), (Option.some.inj heq2).symm⟩))))
    · rw [if_neg hcond] at h
      subst h
      have heq2 : (none : Option String) = some line := heq
      exact Option.noConfusion heq2
  · by_cases hcond : find_isbn row ≠ ""
    · rw [if_pos hcond] at h
      subst h
      have heq2 : some ("isbn: " ++ find_isbn row) = some line := heq
      exact Or.inr (Or.inr (Or.inr (Or.inr (Or.inr (Or.inl
        ⟨hcond, find_isbn row, (Option.some.inj heq2).symm⟩)))))
    · rw [if_neg hcond] at h
      subst h
      have heq2 : (none : Option String) = some line := heq
      exact Option.noConfusion heq2
  · by_cases hcond : find_cover fs row (find_isbn row) ≠ ""
    · rw [if_pos hcond] at h
      subst h
      have heq2 : some ("cover: " ++ find_cover fs row (find_isbn row)) =
        some line := heq
      exact Or.inr (Or.inr (Or.inr (Or.inr (Or.inr (Or.inr (Or.inl
        ⟨hcond, find_cover fs row (find_isbn row),
          (Option.some.inj heq2).symm⟩))))))
    · rw [if_neg hcond] at h
      subst h
      have heq2 : (none : Option String) = some line := heq
      exact Option.noConfusion heq2
  · by_cases hcond : parse_year (row.pubdate.getD "") ≠ ""
    · rw [if_pos hcond] at h
      subst h
      have heq2 : some ("released: " ++ parse_year (row.pubdate.getD "")) =
        some line := heq
      exact Or.inr (Or.inr (Or.inr (Or.inr (Or.inr (Or.inr (Or.inr (Or.inl
        ⟨hcond, parse_year (row.pubdate.getD ""),
          (Option.some.inj heq2).symm⟩)))))))
    · rw [if_neg hcond] at h
      subst h
      have heq2 : (none : Option String) = some line := heq
      exact Option.noConfusion heq2
  · by_cases hcond : fm_stars row ≠ ""
    · rw [if_pos hcond] at h
      subst h
      have heq2 : some ("stars: " ++ fm_stars row) = some line := heq
      exact Or.inr (Or.inr (Or.inr (Or.inr (Or.inr (Or.inr (Or.inr (Or.inr
        (Or.inl ⟨hcond, fm_stars row, (Option.some.inj heq2).symm⟩))))))))
    · rw [if_neg hcond] at h
      subst h
      have heq2 : (none : Option String) = some line := heq
      exact Option.noConfusion heq2
  · by_cases hcond : fm_languages row ≠ []
    · rw [if_pos hcond] at h
      subst h
      have heq2 : some ("languages: " ++ render_list (fm_languages row)) =
        some line := heq
      exact Or.inr (Or.inr (Or.inr (Or.inr (Or.inr (Or.inr (Or.inr (Or.inr
        (Or.inr (Or.inl
          ⟨hcond, render_list (fm_languages row),
            (Option.some.inj heq2).symm⟩)))))))))
    · rw [if_neg hcond] at h
      subst h
      have heq2 : (none : Option String) = some line := heq
      exact Option.noConfusion heq2
  · by_cases hcond : fm_tags row ≠ []
    · rw [if_pos hcond] at h
      subst h
      have heq2 : some ("tags: " ++ render_list (fm_tags row)) = some line := heq
      exact Or.inr (Or.inr (Or.inr (Or.inr (Or.inr (Or.inr (Or.inr (Or.inr
        (Or.inr (Or.inr (Or.inl
          ⟨hcond, render_list (fm_tags row),
            (Option.some.inj heq2).symm⟩))))))))))
    · rw [if_neg hcond] at h
      subst h
      have heq2 : (none : Option String) = some line := heq
      exact Option.noConfusion heq2
  · by_cases hcond : fm_category apiKey reply row ≠ ""
    · rw [if_pos hcond] at h
      subst h
      have heq2 : some ("categories: " ++ render_list [fm_category apiKey reply row]) =
        some line := heq
      exact Or.inr (Or.inr (Or.inr (Or.inr (Or.inr (Or.inr (Or.inr (Or.inr
        (Or.inr (Or.inr (Or.inr
          ⟨hcond, render_list [fm_category apiKey reply row],
            (Option.some.inj heq2).symm⟩))))))))))
    · rw [if_neg hcond] at h
      subst h
      have heq2 : (none : Option String) = some line := heq
      exact Option.noConfusion heq2
  · subst h
    have heq2 : some ("status: Planned" : String) = some line := heq
    exact Or.inr (Or.inr (Or.inl (Option.some.inj heq2).symm))
  · subst h
    have heq2 : some ("---" : String) = some line := heq
    exact Or.inl (Option.some.inj heq2).symm

/-- C9: the constant `layout: book-review` and `status: Planned` lines are
emitted for every row, while every optional header line — `author:`,
`isbn:`, `cover:`, `released:`, `stars:`, `languages:`, `tags:` and
`categories:` — is omitted entirely whenever its derived value is
empty/absent (in particular a row with empty authors produces no `author:`
line). -/
theorem build_front_matter_spec (fs : FS) (apiKey : String)
    (reply : Option String) (row : Row) :
    "layout: book-review" ∈ build_front_matter fs apiKey reply row ∧
    "status: Planned" ∈ build_front_matter fs apiKey reply row ∧
    (row_authors row = "" →
      ∀ x : String, ("author: " ++ x) ∉ build_front_matter fs apiKey reply row) ∧
    (find_isbn row = "" →
      ∀ x : String, ("isbn: " ++ x) ∉ build_front_matter fs apiKey reply row) ∧
    (find_cover fs row (find_isbn row) = "" →
      ∀ x : String, ("cover: " ++ x) ∉ build_front_matter fs apiKey reply row) ∧
    (parse_year (row.pubdate.getD "") = "" →
      ∀ x : String, ("released: " ++ x) ∉ build_front_matter fs apiKey reply row) ∧
    (fm_stars row = "" →
      ∀ x : String, ("stars: " ++ x) ∉ build_front_matter fs apiKey reply row) ∧
    (fm_languages row = [] →
      ∀ x : String, ("languages: " ++ x) ∉ build_front_matter fs apiKey reply row) ∧
    (fm_tags row = [] →
      ∀ x : String, ("tags: " ++ x) ∉ build_front_matter fs apiKey reply row) ∧
    (fm_category apiKey reply row = "" →
      ∀ x : String,
        ("categories: " ++ x) ∉ build_front_matter fs apiKey reply row) := by
  refine ⟨?_, ?_, ?_, ?_, ?_, ?_, ?_, ?_, ?_, ?_⟩
  · unfold build_front_matter pyFilterTruthy
    refine List.mem_filterMap.mpr ⟨some "layout: book-review", ?_, by rfl⟩
    unfold front_matter_lines
    exact List.Mem.tail _ (List.Mem.head _)
  · unfold build_front_matter pyFilterTruthy
    refine List.mem_filterMap.mpr ⟨some "status: Planned", ?_, by rfl⟩
    unfold front_matter_lines
    exact List.Mem.tail _ (List.Mem.tail _ (List.Mem.tail _ (List.Mem.tail _
      (List.Mem.tail _ (List.Mem.tail _ (List.Mem.tail _ (List.Mem.tail _
        (List.Mem.tail _ (List.Mem.tail _ (List.Mem.tail _
          (List.Mem.head _)))))))))))
  · intro hauth x hmem
    rcases front_matter_mem_shape fs apiKey reply row _ hmem with
      h | h | h | ⟨z, h⟩ | ⟨hc, _, h⟩ | ⟨_, z, h⟩ | ⟨_, z, h⟩ | ⟨_, z, h⟩ |
      ⟨_, z, h⟩ | ⟨_, z, h⟩ | ⟨_, z, h⟩ | ⟨_, z, h⟩
    · exact string_ne_of_head 'a' '-' "author: " x "---" rfl rfl (by decide) h
    · exact string_ne_of_head 'a' 'l' "author: " x "layout: book-review"
        rfl rfl (by decide) h
    · exact string_ne_of_head 'a' 's' "author: " x "status: Planned"
        rfl rfl (by decide) h
    · exact string_ne_of_head 'a' 't' "author: " x ("title: " ++ z)
        rfl rfl (by decide) h
    · exact hc hauth
    · exact string_ne_of_head 'a' 'i' "author: " x ("isbn: " ++ z)
        rfl rfl (by decide) h
    · exact string_ne_of_head 'a' 'c' "author: " x ("cover: " ++ z)
        rfl rfl (by decide) h
    · exact string_ne_of_head 'a' 'r' "author: " x ("released: " ++ z)
        rfl rfl (by decide) h
    · exact string_ne_of_head 'a' 's' "author: " x ("stars: " ++ z)
        rfl rfl (by decide) h
    · exact string_ne_of_head 'a' 'l' "author: " x ("languages: " ++ z)
        rfl rfl (by decide) h
    · exact string_ne_of_head 'a' 't' "author: " x ("tags: " ++ z)
        rfl rfl (by decide) h
    · exact string_ne_of_head 'a' 'c' "author: " x ("categories: " ++ z)
        rfl rfl (by decide) h
  · intro hisbn x hmem
    rcases front_matter_mem_shape fs apiKey reply row _ hmem with
      h | h | h | ⟨z, h⟩ | ⟨_, z, h⟩ | ⟨hc, _, h⟩ | ⟨_, z, h⟩ | ⟨_, z, h⟩ |
      ⟨_, z, h⟩ | ⟨_, z, h⟩ | ⟨_, z, h⟩ | ⟨_, z, h⟩
    · exact string_ne_of_head 'i' '-' "isbn: " x "---" rfl rfl (by decide) h
    · exact string_ne_of_head 'i' 'l' "isbn: " x "layout: book-review"
        rfl rfl (by decide) h
    · exact string_ne_of_head 'i' 's' "isbn: " x "status: Planned"
        rfl rfl (by decide) h
    · exact string_ne_of_head 'i' 't' "isbn: " x ("title: " ++ z)
        rfl rfl (by decide) h
    · exact string_ne_of_head 'i' 'a' "isbn: " x ("author: " ++ z)
        rfl rfl (by decide) h
    · exact hc hisbn
    · exact string_ne_of_head 'i' 'c' "isbn: " x ("cover: " ++ z)
        rfl rfl (by decide) h
    · exact string_ne_of_head 'i' 'r' "isbn: " x ("released: " ++ z)
        rfl rfl (by decide) h
    · exact string_ne_of_head 'i' 's' "isbn: " x ("stars: " ++ z)
        rfl rfl (by decide) h
    · exact string_ne_of_head 'i' 'l' "isbn: " x ("languages: " ++ z)
        rfl rfl (by decide) h
    · exact string_ne_of_head 'i' 't' "isbn: " x ("tags: " ++ z)
        rfl rfl (by decide) h
    · exact string_ne_of_head 'i' 'c' "isbn: " x ("categories: " ++ z)
        rfl rfl (by decide) h
  · intro hcov x hmem
    rcases front_matter_mem_shape fs apiKey reply row _ hmem with
      h | h | h | ⟨z, h⟩ | ⟨_, z, h⟩ | ⟨_, z, h⟩ | ⟨hc, _, h⟩ | ⟨_, z, h⟩ |
      ⟨_, z, h⟩ | ⟨_, z, h⟩ | ⟨_, z, h⟩ | ⟨_, z, h⟩
    · exact string_ne_of_head 'c' '-' "cover: " x "---" rfl rfl (by decide) h
    · exact string_ne_of_head 'c' 'l' "cover: " x "layout: book-review"
        rfl rfl (by decide) h
    · exact string_ne_of_head 'c' 's' "cover: " x "status: Planned"
        rfl rfl (by decide) h
    · exact string_ne_of_head 'c' 't' "cover: " x ("title: " ++ z)
        rfl rfl (by decide) h
    · exact string_ne_of_head 'c' 'a' "cover: " x ("author: " ++ z)
        rfl rfl (by decide) h
    · exact string_ne_of_head 'c' 'i' "cover: " x ("isbn: " ++ z)
        rfl rfl (by decide) h
    · exact hc hcov
    · exact string_ne_of_head 'c' 'r' "cover: " x ("released: " ++ z)
        rfl rfl (by decide) h
    · exact string_ne_of_head 'c' 's' "cover: " x ("stars: " ++ z)
        rfl rfl (by decide) h
    · exact string_ne_of_head 'c' 'l' "cover: " x ("languages: " ++ z)
        rfl rfl (by decide) h
    · exact string_ne_of_head 'c' 't' "cover: " x ("tags: " ++ z)
        rfl rfl (by decide) h
    · exact string_ne_of_take_two 7 "cover: " x "categories: " z
        (by decide) (by decide) (by decide) h
  · intro hyear x hmem
    rcases front_matter_mem_shape fs apiKey reply row _ hmem with
      h | h | h | ⟨z, h⟩ | ⟨_, z, h⟩ | ⟨_, z, h⟩ | ⟨_, z, h⟩ | ⟨hc, _, h⟩ |
      ⟨_, z, h⟩ | ⟨_, z, h⟩ | ⟨_, z, h⟩ | ⟨_, z, h⟩
    · exact string_ne_of_head 'r' '-' "released: " x "---" rfl rfl (by decide) h
    · exact string_ne_of_head 'r' 'l' "released: " x "layout: book-review"
        rfl rfl (by decide) h
    · exact string_ne_of_head 'r' 's' "released: " x "status: Planned"
        rfl rfl (by decide) h
    · exact string_ne_of_head 'r' 't' "released: " x ("title: " ++ z)
        rfl rfl (by decide) h
    · exact string_ne_of_head 'r' 'a' "released: " x ("author: " ++ z)
        rfl rfl (by decide) h
    · exact string_ne_of_head 'r' 'i' "released: " x ("isbn: " ++ z)
        rfl rfl (by decide) h
    · exact string_ne_of_head 'r' 'c' "released: " x ("cover: " ++ z)
        rfl rfl (by decide) h
    · exact hc hyear
    · exact string_ne_of_head 'r' 's' "released: " x ("stars: " ++ z)
        rfl rfl (by decide) h
    · exact string_ne_of_head 'r' 'l' "released: " x ("languages: " ++ z)
        rfl rfl (by decide) h
    · exact string_ne_of_head 'r' 't' "released: " x ("tags: " ++ z)
        rfl rfl (by decide) h
    · exact string_ne_of_head 'r' 'c' "released: " x ("categories: " ++ z)
        rfl rfl (by decide) h
  · intro hstars x hmem
    rcases front_matter_mem_shape fs apiKey reply row _ hmem with
      h | h | h | ⟨z, h⟩ | ⟨_, z, h⟩ | ⟨_, z, h⟩ | ⟨_, z, h⟩ | ⟨_, z, h⟩ |
      ⟨hc, _, h⟩ | ⟨_, z, h⟩ | ⟨_, z, h⟩ | ⟨_, z, h⟩
    · exact string_ne_of_head 's' '-' "stars: " x "---" rfl rfl (by decide) h
    · exact string_ne_of_head 's' 'l' "stars: " x "layout: book-review"
        rfl rfl (by decide) h
    · exact string_ne_of_take 7 "stars: " x "status: Planned" rfl (by decide) h
    · exact string_ne_of_head 's' 't' "stars: " x ("title: " ++ z)
        rfl rfl (by decide) h
    · exact string_ne_of_head 's' 'a' "stars: " x ("author: " ++ z)
        rfl rfl (by decide) h
    · exact string_ne_of_head 's' 'i' "stars: " x ("isbn: " ++ z)
        rfl rfl (by decide) h
    · exact string_ne_of_head 's' 'c' "stars: " x ("cover: " ++ z)
        rfl rfl (by decide) h
    · exact string_ne_of_head 's' 'r' "stars: " x ("released: " ++ z)
        rfl rfl (by decide) h
    · exact hc hstars
    · exact string_ne_of_head 's' 'l' "stars: " x ("languages: " ++ z)
        rfl rfl (by decide) h
    · exact string_ne_of_head 's' 't' "stars: " x ("tags: " ++ z)
        rfl rfl (by decide) h
    · exact string_ne_of_head 's' 'c' "stars: " x ("categories: " ++ z)
        rfl rfl (by decide) h
  · intro hlang x hmem
    rcases front_matter_mem_shape fs apiKey reply row _ hmem with
      h | h | h | ⟨z, h⟩ | ⟨_, z, h⟩ | ⟨_, z, h⟩ | ⟨_, z, h⟩ | ⟨_, z, h⟩ |
      ⟨_, z, h⟩ | ⟨hc, _, h⟩ | ⟨_, z, h⟩ | ⟨_, z, h⟩
    · exact string_ne_of_head 'l' '-' "languages: " x "---" rfl rfl
        (by decide) h
    · exact string_ne_of_take 11 "languages: " x "layout: book-review"
        rfl (by decide) h
    · exact string_ne_of_head 'l' 's' "languages: " x "status: Planned"
        rfl rfl (by decide) h
    · exact string_ne_of_head 'l' 't' "languages: " x ("title: " ++ z)
        rfl rfl (by decide) h
    · exact string_ne_of_head 'l' 'a' "languages: " x ("author: " ++ z)
        rfl rfl (by decide) h
    · exact string_ne_of_head 'l' 'i' "languages: " x ("isbn: " ++ z)
        rfl rfl (by decide) h
    · exact string_ne_of_head 'l' 'c' "languages: " x ("cover: " ++ z)
        rfl rfl (by decide) h
    · exact string_ne_of_head 'l' 'r' "languages: " x ("released: " ++ z)
        rfl rfl (by decide) h
    · exact string_ne_of_head 'l' 's' "languages: " x ("stars: " ++ z)
        rfl rfl (by decide) h
    · exact hc hlang
    · exact string_ne_of_head 'l' 't' "languages: " x ("tags: " ++ z)
        rfl rfl (by decide) h
    · exact string_ne_of_head 'l' 'c' "languages: " x ("categories: " ++ z)
        rfl rfl (by decide) h
  · intro htags x hmem
    rcases front_matter_mem_shape fs apiKey reply row _ hmem with
      h | h | h | ⟨z, h⟩ | ⟨_, z, h⟩ | ⟨_, z, h⟩ | ⟨_, z, h⟩ | ⟨_, z, h⟩ |
      ⟨_, z, h⟩ | ⟨_, z, h⟩ | ⟨hc, _, h⟩ | ⟨_, z, h⟩
    · exact string_ne_of_head 't' '-' "tags: " x "---" rfl rfl (by decide) h
    · exact string_ne_of_head 't' 'l' "tags: " x "layout: book-review"
        rfl rfl (by decide) h
    · exact string_ne_of_head 't' 's' "tags: " x "status: Planned"
        rfl rfl (by decide) h
    · exact string_ne_of_take_two 6 "tags: " x "title: " z
        (by decide) (by decide) (by decide) h
    · exact string_ne_of_head 't' 'a' "tags: " x ("author: " ++ z)
        rfl rfl (by decide) h
    · exact string_ne_of_head 't' 'i' "tags: " x ("isbn: " ++ z)
        rfl rfl (by decide) h
    · exact string_ne_of_head 't' 'c' "tags: " x ("cover: " ++ z)
        rfl rfl (by decide) h
    · exact string_ne_of_head 't' 'r' "tags: " x ("released: " ++ z)
        rfl rfl (by decide) h
    · exact string_ne_of_head 't' 's' "tags: " x ("stars: " ++ z)
        rfl rfl (by decide) h
    · exact string_ne_of_head 't' 'l' "tags: " x ("languages: " ++ z)
        rfl rfl (by decide) h
    · exact hc htags
    · exact string_ne_of_head 't' 'c' "tags: " x ("categories: " ++ z)
        rfl rfl (by decide) h
  · intro hcat x hmem
    rcases front_matter_mem_shape fs apiKey reply row _ hmem with
      h | h | h | ⟨z, h⟩ | ⟨_, z, h⟩ | ⟨_, z, h⟩ | ⟨_, z, h⟩ | ⟨_, z, h⟩ |
      ⟨_, z, h⟩ | ⟨_, z, h⟩ | ⟨_, z, h⟩ | ⟨hc, _, h⟩
    · exact string_ne_of_head 'c' '-' "categories: " x "---" rfl rfl
        (by decide) h
    · exact string_ne_of_head 'c' 'l' "categories: " x "layout: book-review"
        rfl rfl (by decide) h
    · exact string_ne_of_head 'c' 's' "categories: " x "status: Planned"
        rfl rfl (by decide) h
    · exact string_ne_of_head 'c' 't' "categories: " x ("title: " ++ z)
        rfl rfl (by decide) h
    · exact string_ne_of_head 'c' 'a' "categories: " x ("author: " ++ z)
        rfl rfl (by decide) h
    · exact string_ne_of_head 'c' 'i' "categories: " x ("isbn: " ++ z)
        rfl rfl (by decide) h
    · exact string_ne_of_take_two 7 "categories: " x "cover: " z
        (by decide) (by decide) (by decide) h
    · exact string_ne_of_head 'c' 'r' "categories: " x ("released: " ++ z)
        rfl rfl (by decide) h
    · exact string_ne_of_head 'c' 's' "categories: " x ("stars: " ++ z)
        rfl rfl (by decide) h
    · exact string_ne_of_head 'c' 'l' "categories: " x ("languages: " ++ z)
        rfl rfl (by decide) h
    · exact string_ne_of_head 'c' 't' "categories: " x ("tags: " ++ z)
        rfl rfl (by decide) h
    · exact hc hcat

/-- Witness for C9: on a title-only row the constant lines are present and
neither an `author:` nor a `languages:` line is emitted. -/
theorem build_front_matter_spec_wit :
    "layout: book-review" ∈
      build_front_matter ⟨fun _ => false, fun _ => false⟩ "" none rowTitleOnly ∧
    ("author: " ++ "\"Ann\"") ∉
      build_front_matter ⟨fun _ => false, fun _ => false⟩ "" none rowTitleOnly ∧
    ("languages: " ++ "[\"eng\"]") ∉
      build_front_matter ⟨fun _ => false, fun _ => false⟩ "" none rowTitleOnly := by
  refine ⟨?_, ?_, ?_⟩
  · exact (build_front_matter_spec ⟨fun _ => false, fun _ => false⟩ "" none
      rowTitleOnly).1
  · exact (build_front_matter_spec ⟨fun _ => false, fun _ => false⟩ "" none
      rowTitleOnly).2.2.1 rfl "\"Ann\""
  · exact (build_front_matter_spec ⟨fun _ => false, fun _ => false⟩ "" none
      rowTitleOnly).2.2.2.2.2.2.2.1 rfl "[\"eng\"]"
